import Mathlib

/-!
Verification development for the CryptoRador market-monitoring pipeline.

The definitions below are shallow embeddings of the Python sources under
`src/`.  Rational numbers stand in for Python floats (the properties checked
here are about exact formulas and comparisons, not rounding), and Lean's
total division (`x / 0 = 0`) replaces Python's float division where a zero
denominator can occur; each such spot is noted.  Strings are modelled as
`List Char` with executable re-implementations of the Python string
operations used by the sources (`in`, `replace`, `split`, `endswith`,
`strip`).
-/

/-- One OHLCV bar: timestamp (ms), then open, high, low, close, volume.
    Mirrors the 6-column frames kept by the fetchers (`opn` stands for the
    `open` column, which is a Lean keyword). -/
structure Bar where
  ts : Int
  opn : ℚ
  high : ℚ
  low : ℚ
  close : ℚ
  volume : ℚ
deriving DecidableEq, Repr

/-- Convenience constructor used by concrete test frames. -/
def mkBar (ts : Int) (opn close volume : ℚ) : Bar :=
  { ts := ts, opn := opn, high := max opn close, low := min opn close,
    close := close, volume := volume }

/-! ### String machinery (Python `in`, `replace`, `split`, `strip`) -/

/-- Python `p in t` on strings: does `p` occur as a contiguous substring? -/
def occursIn (p : List Char) : List Char → Bool
  | [] => p.isEmpty
  | a :: t => p.isPrefixOf (a :: t) || occursIn p t

/-- Worker for `replaceAll`, structurally recursive on a fuel argument so that
    it evaluates by kernel reduction.  With `fuel ≥ t.length` it performs the
    full left-to-right scan. -/
def replaceAllAux (p r : List Char) : List Char → Nat → List Char
  | t, 0 => t
  | [], _ => []
  | a :: t, fuel + 1 =>
    if p ≠ [] ∧ p.isPrefixOf (a :: t) then
      r ++ replaceAllAux p r ((a :: t).drop p.length) fuel
    else
      a :: replaceAllAux p r t fuel

/-- Python `t.replace(p, r)`: replace every non-overlapping occurrence of `p`,
    scanning left to right.  An empty pattern is left alone (every pattern the
    sources pass is a non-empty literal). -/
def replaceAll (p r t : List Char) : List Char :=
  replaceAllAux p r t t.length

/-- Python `t.split('/')`. -/
def splitOnSlash : List Char → List (List Char)
  | [] => [[]]
  | a :: t =>
    let r := splitOnSlash t
    if a = '/' then [] :: r
    else
      match r with
      | h :: ts => (a :: h) :: ts
      | [] => [[a]]

/-- Python `t.strip()` (strip whitespace at both ends). -/
def stripWs (s : List Char) : List Char :=
  ((s.dropWhile (·.isWhitespace)).reverse.dropWhile (·.isWhitespace)).reverse

/-- Python `t.strip(bad)` (strip any of the characters in `bad` at both ends). -/
def stripEnds (bad : List Char) (s : List Char) : List Char :=
  ((s.dropWhile (bad.contains ·)).reverse.dropWhile (bad.contains ·)).reverse

/-! ### Symbol normalization (`_normalize_symbol` in
    `src/analyzer/perp_exchange_monitor.py` and, identically, in
    `src/fetcher/perp_ws_subscriber.py`) -/

/-- The six literal substrings removed by `_normalize_symbol`, in source
    order, as character lists. -/
def patPERP : List Char := ['P', 'E', 'R', 'P']

def patSWAP : List Char := ['-', 'S', 'W', 'A', 'P']

def patUPERP : List Char := ['_', 'P', 'E', 'R', 'P']

def patFUTURES : List Char := ['-', 'F', 'U', 'T', 'U', 'R', 'E', 'S']

def patSlashUsdtPerp : List Char :=
  ['/', 'U', 'S', 'D', 'T', '-', 'P', 'E', 'R', 'P']

def patColonUsdt : List Char := [':', 'U', 'S', 'D', 'T']

def patUSDT : List Char := ['U', 'S', 'D', 'T']

def patUnderUSDT : List Char := ['_', 'U', 'S', 'D', 'T']

def patDashUSDT : List Char := ['-', 'U', 'S', 'D', 'T']

def stripSet : List Char := ['_', '-', ':', '/']

/-- The final `for marker in ['USDT', '_USDT', '-USDT']` suffix loop of
    `_normalize_symbol`: drop a trailing USDT marker, then strip `_-:/`. -/
def usdtSuffixStep (n : List Char) : List Char :=
  if patUSDT.isSuffixOf n then
    stripEnds stripSet (n.take (n.length - 4))
  else if patUnderUSDT.isSuffixOf n then
    stripEnds stripSet (n.take (n.length - 5))
  else if patDashUSDT.isSuffixOf n then
    stripEnds stripSet (n.take (n.length - 5))
  else n

/-- The branch of `_normalize_symbol` taken after the six replacements:
    if the residue is a `base/quote` pair whose quote mentions USDT, return
    the whitespace-stripped base; else fall through to the suffix loop.
    (Python's `split('/')` yields at least two parts whenever `'/'` occurs,
    so the `len(parts) > 1` guard is subsumed by the match.) -/
def slashStep (n : List Char) : List Char :=
  if n.contains '/' then
    match splitOnSlash n with
    | p0 :: p1 :: _ =>
      if occursIn patUSDT p1 then stripWs p0 else usdtSuffixStep n
    | _ => usdtSuffixStep n
  else usdtSuffixStep n

/-- `_normalize_symbol(exchange, symbol)` (the `exchange` argument is unused
    in the source): strip perpetual markers in source order, then apply the
    pair/suffix logic. -/
def normalizeSymbolList (s : List Char) : List Char :=
  slashStep (replaceAll patColonUsdt []
    (replaceAll patSlashUsdtPerp []
      (replaceAll patFUTURES []
        (replaceAll patUPERP []
          (replaceAll patSWAP []
            (replaceAll patPERP [] s))))))

/-- The canonical-base normalization lifted to `String`. -/
def canonicalize (s : String) : String :=
  ⟨normalizeSymbolList s.toList⟩

/-! Fixed-point machinery for the amended idempotence statement. -/

/-- `canonFree t`: `t` mentions none of the normalization triggers (no `PERP`,
    `-SWAP`, `-FUTURES` or `USDT` substring and no slash).  Every such string
    is a fixed point of the normalization. -/
def canonFree (t : List Char) : Bool :=
  !occursIn patPERP t && !occursIn patSWAP t &&
  !occursIn patFUTURES t && !occursIn patUSDT t && !t.contains '/'

theorem occursIn_of_isPrefixOf {p t : List Char} (h : p.isPrefixOf t = true) :
    occursIn p t = true := by
  cases t with
  | nil =>
    cases p with
    | nil => rfl
    | cons a q => simp [List.isPrefixOf] at h
  | cons a t => simp [occursIn, h]

theorem occursIn_tail {p : List Char} {a : Char} {t : List Char}
    (h : occursIn p t = true) : occursIn p (a :: t) = true := by
  simp [occursIn, h]

theorem occursIn_of_cons {c : Char} {p t : List Char}
    (h : occursIn (c :: p) t = true) : occursIn p t = true := by
  induction t with
  | nil => simp [occursIn] at h
  | cons a t ih =>
    simp only [occursIn, Bool.or_eq_true] at h
    rcases h with h | h
    · rw [List.isPrefixOf_iff_prefix] at h
      obtain ⟨u, hu⟩ := h
      have hpt : p ++ u = t := by
        have := congrArg List.tail hu
        simpa using this
      have hpre : p.isPrefixOf t = true := by
        rw [List.isPrefixOf_iff_prefix]
        exact ⟨u, hpt⟩
      exact occursIn_tail (occursIn_of_isPrefixOf hpre)
    · exact occursIn_tail (ih h)

theorem occursIn_of_append {u p t : List Char}
    (h : occursIn (u ++ p) t = true) : occursIn p t = true := by
  induction u with
  | nil => simpa using h
  | cons c u ih => exact ih (occursIn_of_cons h)

theorem occursIn_append_self (p u : List Char) : occursIn p (u ++ p) = true := by
  induction u with
  | nil =>
    cases p with
    | nil => rfl
    | cons a q =>
      exact occursIn_of_isPrefixOf
        (by rw [List.isPrefixOf_iff_prefix]; exact ⟨[], by simp⟩)
  | cons a u ih => exact occursIn_tail ih

theorem occursIn_of_isSuffixOf {p t : List Char}
    (h : p.isSuffixOf t = true) : occursIn p t = true := by
  rw [List.isSuffixOf_iff_suffix] at h
  obtain ⟨u, hu⟩ := h
  subst hu
  exact occursIn_append_self p u

theorem replaceAllAux_of_not_occursIn (p r : List Char) :
    ∀ (fuel : Nat) (t : List Char), occursIn p t = false →
      replaceAllAux p r t fuel = t := by
  intro fuel
  induction fuel with
  | zero => intro t _; cases t <;> rfl
  | succ n ih =>
    intro t h
    cases t with
    | nil => rfl
    | cons a t =>
      simp only [occursIn, Bool.or_eq_false_iff] at h
      rw [replaceAllAux, if_neg (by simp [h.1]), ih t h.2]

theorem replaceAll_of_not_occursIn (p r : List Char) (t : List Char)
    (h : occursIn p t = false) : replaceAll p r t = t :=
  replaceAllAux_of_not_occursIn p r t.length t h

/-- A `canonFree` string is a fixed point of the normalization. -/
theorem normalize_fixed_of_canonFree {t : List Char} (h : canonFree t = true) :
    normalizeSymbolList t = t := by
  simp only [canonFree, Bool.and_eq_true, Bool.not_eq_true'] at h
  obtain ⟨⟨⟨⟨hperp, hswap⟩, hfut⟩, husdt⟩, hslash⟩ := h
  have h1 : occursIn patUPERP t = false := by
    by_contra hc
    rw [Bool.not_eq_false] at hc
    have hp := occursIn_of_append (u := ['_']) (p := patPERP) hc
    rw [hp] at hperp
    exact Bool.noConfusion hperp
  have h2 : occursIn patSlashUsdtPerp t = false := by
    by_contra hc
    rw [Bool.not_eq_false] at hc
    have hp := occursIn_of_append (u := ['/', 'U', 'S', 'D', 'T', '-'])
      (p := patPERP) hc
    rw [hp] at hperp
    exact Bool.noConfusion hperp
  have h3 : occursIn patColonUsdt t = false := by
    by_contra hc
    rw [Bool.not_eq_false] at hc
    have hp := occursIn_of_append (u := [':']) (p := patUSDT) hc
    rw [hp] at husdt
    exact Bool.noConfusion husdt
  have s1 : patUSDT.isSuffixOf t = false := by
    by_contra hc
    rw [Bool.not_eq_false] at hc
    have hp := occursIn_of_isSuffixOf hc
    rw [hp] at husdt
    exact Bool.noConfusion husdt
  have s2 : patUnderUSDT.isSuffixOf t = false := by
    by_contra hc
    rw [Bool.not_eq_false] at hc
    have hp := occursIn_of_append (u := ['_']) (p := patUSDT)
      (occursIn_of_isSuffixOf hc)
    rw [hp] at husdt
    exact Bool.noConfusion husdt
  have s3 : patDashUSDT.isSuffixOf t = false := by
    by_contra hc
    rw [Bool.not_eq_false] at hc
    have hp := occursIn_of_append (u := ['-']) (p := patUSDT)
      (occursIn_of_isSuffixOf hc)
    rw [hp] at husdt
    exact Bool.noConfusion husdt
  have hsfx : usdtSuffixStep t = t := by
    rw [usdtSuffixStep, if_neg (by simp [s1]), if_neg (by simp [s2]),
        if_neg (by simp [s3])]
  have hslashStep : slashStep t = t := by
    rw [slashStep, if_neg (by simpa using hslash), hsfx]
  rw [normalizeSymbolList,
      replaceAll_of_not_occursIn _ _ _ hperp,
      replaceAll_of_not_occursIn _ _ _ hswap,
      replaceAll_of_not_occursIn _ _ _ h1,
      replaceAll_of_not_occursIn _ _ _ hfut,
      replaceAll_of_not_occursIn _ _ _ h2,
      replaceAll_of_not_occursIn _ _ _ h3,
      hslashStep]

example : canonicalize "BTCUSDTUSDT" = "BTCUSDT" := by decide
example : canonicalize "BTCUSDT" = "BTC" := by decide
example : canonicalize "BTC/USDT:USDT" = "BTC" := by decide
example : canonFree (normalizeSymbolList "BTC/USDT:USDT".toList) = true := by decide

/-! ### Configuration (src/config/settings.py, defaults) -/

def MIN_PRICE_INCREASE_PERCENT : ℚ := 2

def VOLUME_SPIKE_THRESHOLD : ℚ := 5

def LOOKBACK_MINUTES : Nat := 5

def SPOT_FUTURES_DIFF_THRESHOLD : ℚ := 1/10

def PERP_DIFF_THRESHOLD : ℚ := 1/5

def MAX_RETRIES : Nat := 3

def RETRY_DELAY_SECONDS : ℚ := 2

/-- The per-venue 24-h volume floor map declared in settings.py
    (lines 88-91).  No code under src/ reads it. -/
def EXCHANGE_VOLUME_THRESHOLDS : List (String × ℚ) :=
  [("binance", 20000000), ("gate", 5000000)]

/-! ### MarketAnalyzer (src/analyzer/market_analyzer.py) -/

/-- `MarketAnalyzer.__init__` threshold resolution: Python's
    `price_threshold or settings.X` falls back to the settings default both
    when the argument is `None` and when it is `0` (zero is falsy). -/
def resolveThreshold (arg : Option ℚ) (dflt : ℚ) : ℚ :=
  match arg with
  | none => dflt
  | some x => if x = 0 then dflt else x

/-- `MarketAnalyzer.calculate_price_change`: percentage change from the FIRST
    bar's open to the last bar's close over the whole frame. -/
def calculate_price_change (df : List Bar) : Option ℚ :=
  if df.length < 2 then none
  else
    match df.head?, df.getLast? with
    | some first, some last =>
        if first.opn ≤ 0 then none
        else some ((last.close - first.opn) / first.opn * 100)
    | _, _ => none

/-- Mean of the volumes of all bars but the last (the "historical" volumes). -/
def histAvgVolume (df : List Bar) : ℚ :=
  ((df.dropLast.map (·.volume)).sum) / ((df.dropLast.length : Nat) : ℚ)

/-- `MarketAnalyzer.calculate_volume_ratio`: last volume over the mean of the
    earlier volumes; `None` when the mean is not positive or the frame is too
    short. -/
def calculate_volume_ratio (df : List Bar) : Option ℚ :=
  if df.length < 2 then none
  else
    match df.getLast? with
    | some last =>
        if 0 < histAvgVolume df then some (last.volume / histAvgVolume df)
        else none
    | none => none

def toUpperL (s : List Char) : List Char := s.map Char.toUpper

def stablecoinMarkers : List (List Char) :=
  [['U','S','D','T'], ['U','S','D','C'], ['D','A','I'], ['B','U','S','D'],
   ['U','S','T'], ['T','U','S','D'], ['U','S','D','P'], ['U','S','D','K'],
   ['P','A','X']]

/-- `MarketAnalyzer.is_stablecoin_pair`: replace `-` by `/`, split on `/`, and
    test whether both of the first two parts mention a stablecoin
    (case-insensitively, by substring). -/
def is_stablecoin_pair (symbol : String) : Bool :=
  match splitOnSlash (replaceAll ['-'] ['/'] symbol.toList) with
  | base :: quote :: _ =>
      (stablecoinMarkers.any (fun st => occursIn st (toUpperL base))) &&
      (stablecoinMarkers.any (fun st => occursIn st (toUpperL quote)))
  | _ => false

structure MovementAlert where
  exchange : String
  symbol : String
  price_change_percent : ℚ
  volume_ratio : ℚ
  current_price : ℚ
deriving DecidableEq, Repr

/-- `MarketAnalyzer.detect_abnormal_movements` over
    `exchange → symbol → frame` data.  Payload trimmed to the fields the
    claims inspect; the `round(·, 2)` display rounding and the `is_future`
    tag are omitted. -/
def detect_abnormal_movements (price_threshold volume_threshold : ℚ)
    (lookback : Nat)
    (market_data : List (String × List (String × List Bar))) :
    List MovementAlert :=
  market_data.flatMap (fun ex =>
    ex.2.filterMap (fun sd =>
      if is_stablecoin_pair sd.1 then none
      else if sd.2.isEmpty || sd.2.length < lookback then none
      else
        match calculate_price_change sd.2, calculate_volume_ratio sd.2,
              sd.2.getLast? with
        | some pc, some vr, some last =>
            if price_threshold ≤ pc ∧ volume_threshold ≤ vr then
              some { exchange := ex.1, symbol := sd.1,
                     price_change_percent := pc, volume_ratio := vr,
                     current_price := last.close }
            else none
        | _, _, _ => none))

/-! ### RealtimeMarketAnalyzer (src/analyzer/realtime_analyzer.py) -/

/-- `close` at position `i` of a frame (0 when out of range; every use below
    is guarded in range). -/
def closeAt (df : List Bar) (i : Nat) : ℚ :=
  ((df.get? i).map (·.close)).getD 0

/-- The reference close of `on_new_kline` (lines 199-204):
    `close.iloc[-L]` when the frame has at least `L` bars, else the oldest
    close.  (`iloc[-L]` is index `len - L`; the analyzer's `__init__`
    guarantees `L ≥ 1` via the same or-fallback as the thresholds.) -/
def rt_reference_close (lookback : Nat) (df : List Bar) : ℚ :=
  if lookback ≤ df.length then closeAt df (df.length - lookback)
  else closeAt df 0

/-- The price-change computation of `on_new_kline` (lines 196-206).
    Lean's total division stands in for float division when the reference
    close is zero. -/
def rt_price_change (lookback : Nat) (df : List Bar) : ℚ :=
  let latest := closeAt df (df.length - 1)
  let ref := rt_reference_close lookback df
  (latest - ref) / ref * 100

/-- Modelled from the spec:
    "`price_change_pct = (close_last − close_ref) / close_ref · 100` where
    `close_ref` is the close `L` bars ago (or the oldest available if
    fewer)" — `L` bars ago meaning `iloc[-L]`, counting the last bar as one
    bar ago. -/
def spec_price_change (lookback : Nat) (df : List Bar) : ℚ :=
  let close_last := closeAt df (df.length - 1)
  let close_ref :=
    if lookback ≤ df.length then closeAt df (df.length - lookback)
    else closeAt df 0
  (close_last - close_ref) / close_ref * 100

structure RtAnomaly where
  exchange : String
  symbol : String
  current_price : ℚ
  reference_price : ℚ
  price_change_percent : ℚ
  current_volume : ℚ
  average_volume : ℚ
  volume_change_ratio : ℚ
deriving DecidableEq, Repr

/-- `RealtimeMarketAnalyzer.on_new_kline`, pure core.  Inputs: thresholds,
    lookback and cooldown as resolved in `__init__`, the elapsed seconds
    since the last alert for this `(exchange, symbol)` key (`none` when the
    key has no entry in `alert_cooldowns`), and the buffered frame (already
    ascending by timestamp, on which the source's `sort_values('timestamp')`
    is the identity).  Returns the emitted anomaly, if any.  The 30-day
    percentile enrichment (a fetch that never gates emission) and the
    cooldown-map write are outside this pure core.  Note there is no
    stablecoin-pair check anywhere in this function. -/
def on_new_kline (price_increase_threshold volume_spike_threshold : ℚ)
    (lookback_periods : Nat) (cooldown_seconds : ℚ)
    (exchange_id symbol : String) (elapsed : Option ℚ)
    (kline_data : List Bar) : Option RtAnomaly :=
  if kline_data.length < 2 then none
  else if elapsed.elim false (fun e => decide (e < cooldown_seconds)) then none
  else
    let latest_price := closeAt kline_data (kline_data.length - 1)
    let reference_price := rt_reference_close lookback_periods kline_data
    let price_change_percent :=
      (latest_price - reference_price) / reference_price * 100
    let latest_volume :=
      ((kline_data.get? (kline_data.length - 1)).map (·.volume)).getD 0
    let avg_volume :=
      if 1 < kline_data.length then histAvgVolume kline_data
      else latest_volume
    let volume_change_ratio :=
      if 0 < avg_volume then latest_volume / avg_volume else 1
    if price_increase_threshold ≤ price_change_percent ∧
       volume_spike_threshold ≤ volume_change_ratio then
      some { exchange := exchange_id, symbol := symbol,
             current_price := latest_price,
             reference_price := reference_price,
             price_change_percent := price_change_percent,
             current_volume := latest_volume, average_volume := avg_volume,
             volume_change_ratio := volume_change_ratio }
    else none

/-! ### SpotFuturesMonitor (src/analyzer/spot_futures_monitor.py) -/

/-- `SpotFuturesMonitor.__init__` direction validation: any value outside
    `{'both', 'premium', 'discount'}` falls back to `'both'`; no exception is
    raised. -/
def resolve_basis_direction (basis_direction : String) : String :=
  if basis_direction = "both" ∨ basis_direction = "premium" ∨
     basis_direction = "discount" then basis_direction
  else "both"

/-- The stable-quote suffix loop of `_extract_base_symbol`
    (`['USDT', 'BUSD', 'USDC', 'USD']`). -/
def extractSuffixStep (n : List Char) : List Char :=
  if patUSDT.isSuffixOf n then stripEnds stripSet (n.take (n.length - 4))
  else if ['B','U','S','D'].isSuffixOf n then
    stripEnds stripSet (n.take (n.length - 4))
  else if ['U','S','D','C'].isSuffixOf n then
    stripEnds stripSet (n.take (n.length - 4))
  else if ['U','S','D'].isSuffixOf n then
    stripEnds stripSet (n.take (n.length - 3))
  else n

/-- `SpotFuturesMonitor._extract_base_symbol` (the same code appears in
    async_subscription_fetcher.py): strip the four perpetual markers, take
    the part before `/` when present, else strip a trailing stable-quote
    suffix. -/
def extract_base_symbol (s : List Char) : List Char :=
  let n := replaceAll patFUTURES []
    (replaceAll patUPERP [] (replaceAll patSWAP [] (replaceAll patPERP [] s)))
  if n.contains '/' then
    match splitOnSlash n with
    | p0 :: _ :: _ => stripWs p0
    | _ => extractSuffixStep n
  else extractSuffixStep n

/-- Python-dict insertion for the `spot_symbols_map` (later writes to the
    same key overwrite earlier ones). -/
def dictInsert (m : List (List Char × String)) (k : List Char) (v : String) :
    List (List Char × String) :=
  if m.any (fun p => p.1 == k) then
    m.map (fun p => if p.1 == k then (k, v) else p)
  else m ++ [(k, v)]

def dictFind (m : List (List Char × String)) (k : List Char) : Option String :=
  (m.find? (fun p => p.1 == k)).map (·.2)

/-- `SpotFuturesMonitor._find_matching_pairs`: map canonical base → spot
    symbol over the USDT-mentioning spot symbols, then pair each
    USDT-mentioning future symbol whose base has a spot entry. -/
def find_matching_pairs (spot_markets future_markets : List (String × List Bar)) :
    List (String × String) :=
  let spot_symbols_map := spot_markets.foldl (fun m sp =>
    if occursIn patUSDT sp.1.toList then
      let base := extract_base_symbol sp.1.toList
      if base ≠ [] then dictInsert m base sp.1 else m
    else m) []
  future_markets.filterMap (fun fu =>
    if occursIn patUSDT fu.1.toList then
      (dictFind spot_symbols_map (extract_base_symbol fu.1.toList)).map
        (fun sp => (sp, fu.1))
    else none)

/-- `SpotFuturesMonitor.calculate_price_difference`:
    `(future_close - spot_close) / spot_close * 100` on the latest closes,
    `None` on an empty frame or non-positive spot price. -/
def calculate_price_difference (spot_df future_df : List Bar) : Option ℚ :=
  match spot_df.getLast?, future_df.getLast? with
  | some s, some f =>
      if s.close ≤ 0 then none
      else some ((f.close - s.close) / s.close * 100)
  | _, _ => none

structure BasisAlert where
  exchange : String
  spot_symbol : String
  future_symbol : String
  spot_price : ℚ
  future_price : ℚ
  price_difference_percent : ℚ
  is_premium : Bool
  direction : String
deriving DecidableEq, Repr

/-- One venue's snapshot for the basis detector: the `spot` / `future`
    market-type entries (absent key modelled as `none`). -/
structure ExchangeMarkets where
  exchange : String
  spot : Option (List (String × List Bar))
  future : Option (List (String × List Bar))

/-- `SpotFuturesMonitor.detect_abnormal_basis` (the `round(·, 4)` display
    rounding is omitted from the payload). -/
def detect_abnormal_basis (threshold : ℚ) (basis_direction : String)
    (market_data : List ExchangeMarkets) : List BasisAlert :=
  market_data.flatMap (fun em =>
    match em.spot, em.future with
    | some spot_markets, some future_markets =>
      (find_matching_pairs spot_markets future_markets).filterMap (fun pr =>
        match spot_markets.find? (fun p => p.1 == pr.1),
              future_markets.find? (fun p => p.1 == pr.2) with
        | some sp, some fu =>
          match calculate_price_difference sp.2 fu.2 with
          | none => none
          | some price_diff =>
            if basis_direction = "premium" ∧ ¬(0 < price_diff) then none
            else if basis_direction = "discount" ∧ 0 < price_diff then none
            else if threshold ≤ |price_diff| then
              some { exchange := em.exchange, spot_symbol := pr.1,
                     future_symbol := pr.2,
                     spot_price := (sp.2.getLast?.map (·.close)).getD 0,
                     future_price := (fu.2.getLast?.map (·.close)).getD 0,
                     price_difference_percent := price_diff,
                     is_premium := decide (0 < price_diff),
                     direction :=
                       if 0 < price_diff then "premium" else "discount" }
            else none
        | _, _ => none)
    | _, _ => [])

/-! ### Basis cooldown gate
    (run_subscription_spot_futures.py, `_filter_cooldown_alerts`) -/

/-- The dedup key `f"{exchange}:{spot_symbol}:{future_symbol}"`. -/
def alertKey (a : BasisAlert) : String :=
  a.exchange ++ ":" ++ a.spot_symbol ++ ":" ++ a.future_symbol

/-- `self.last_alert_time.get(alert_key, 0)`. -/
def lookupTime (m : List (String × ℚ)) (k : String) : ℚ :=
  ((m.find? (fun p => p.1 == k)).map (·.2)).getD 0

/-- `_filter_cooldown_alerts`: keep an alert only when
    `current_time - last_time > alert_cooldown` (strict).  The instance
    default for `alert_cooldown` is 300 seconds. -/
def filter_cooldown_alerts (alert_cooldown now : ℚ)
    (last_alert_time : List (String × ℚ)) (alerts : List BasisAlert) :
    List BasisAlert :=
  alerts.filter (fun a =>
    decide (alert_cooldown < now - lookupTime last_alert_time (alertKey a)))

/-! ### PerpExchangeMonitor (src/analyzer/perp_exchange_monitor.py) -/

structure PerpAlert where
  base_symbol : String
  exchange1 : String
  exchange2 : String
  price1 : ℚ
  price2 : ℚ
  volume1 : ℚ
  volume2 : ℚ
  price_difference_percent : ℚ
  higher_exchange : String
  lower_exchange : String
  higher_price : ℚ
  lower_price : ℚ
deriving DecidableEq, Repr

/-- The hard-coded volume gate of `calculate_price_differences`
    (lines 186-207): a Binance side needs at least 20,000,000 and a Gate side
    at least 1,000,000; other venues are unconstrained.  The
    `EXCHANGE_VOLUME_THRESHOLDS` configuration map is not consulted. -/
def volume_threshold_passed (exchange1 exchange2 : String)
    (volume1 volume2 : ℚ) : Bool :=
  !((exchange1 == "binance" && decide (volume1 < 20000000)) ||
    (exchange2 == "binance" && decide (volume2 < 20000000)) ||
    (exchange1 == "gate" && decide (volume1 < 1000000)) ||
    (exchange2 == "gate" && decide (volume2 < 1000000)))

/-- One venue's data for a canonical base: latest close and the summed
    `volume` column (`volumes_24h`). -/
structure VenueQuote where
  exchange : String
  symbol : String
  price : ℚ
  volume : ℚ
deriving DecidableEq, Repr

/-- The body of the pair loop of `calculate_price_differences`
    (lines 173-243, payload of one alert). -/
def perp_pair_alert (threshold : ℚ) (base : String) (q1 q2 : VenueQuote) :
    Option PerpAlert :=
  if q1.price ≤ 0 ∨ q2.price ≤ 0 then none
  else if ¬(volume_threshold_passed q1.exchange q2.exchange q1.volume q2.volume
              = true) then none
  else
    let price_diff_percent := (q2.price - q1.price) / q1.price * 100
    if threshold ≤ |price_diff_percent| then
      some { base_symbol := base,
             exchange1 := q1.exchange, exchange2 := q2.exchange,
             price1 := q1.price, price2 := q2.price,
             volume1 := q1.volume, volume2 := q2.volume,
             price_difference_percent := price_diff_percent,
             higher_exchange :=
               if q1.price < q2.price then q2.exchange else q1.exchange,
             lower_exchange :=
               if q1.price < q2.price then q1.exchange else q2.exchange,
             higher_price := max q1.price q2.price,
             lower_price := min q1.price q2.price }
    else none

/-- `for i, exchange1 in enumerate(...): for exchange2 in [...][i+1:]`:
    compare every unordered pair, in iteration order. -/
def perp_compare_pairs (threshold : ℚ) (base : String) :
    List VenueQuote → List PerpAlert
  | [] => []
  | q :: rest =>
      rest.filterMap (fun q2 => perp_pair_alert threshold base q q2) ++
      perp_compare_pairs threshold base rest

/-- One venue's frame for a base of the symbol mapping, with the
    `'volume' in df.columns` presence flag. -/
structure VenueFrame where
  exchange : String
  symbol : String
  bars : List Bar
  hasVolumeColumn : Bool
deriving Repr

/-- Lines 150-168 of `calculate_price_differences`: collect each venue's
    latest close into `latest_prices` and the summed volume column into
    `volumes_24h` (`volumes_24h.get(exchange, 0)` yields 0 when the frame has
    no volume column). -/
def perp_quotes (vfs : List VenueFrame) : List VenueQuote :=
  vfs.filterMap (fun vf =>
    match vf.bars.getLast? with
    | none => none
    | some last =>
        some { exchange := vf.exchange, symbol := vf.symbol,
               price := last.close,
               volume :=
                 if vf.hasVolumeColumn then (vf.bars.map (·.volume)).sum
                 else 0 })

/-- `calculate_price_differences` restricted to a single canonical base of
    the symbol mapping (lines 140-244): the per-base comparison loop. -/
def calculate_price_differences_base (threshold : ℚ) (base : String)
    (vfs : List VenueFrame) : List PerpAlert :=
  let quotes := perp_quotes vfs
  if 2 ≤ quotes.length then perp_compare_pairs threshold base quotes else []

/-! ### WebSocket stream task
    (src/fetcher/websocket_data_subscriber.py, `_handle_ohlcv_subscription`) -/

def lowerL (s : List Char) : List Char := s.map Char.toLower

/-- The four lowercase substrings that classify a `ccxt.BaseError` as a
    permanent symbol problem (lines 288-289):
    `any(err in error_message.lower() for err in [...])`. -/
def isPermanentSymbolError (msg : String) : Bool :=
  [['i','n','v','a','l','i','d',' ','s','y','m','b','o','l'],
   ['s','y','m','b','o','l',' ','n','o','t',' ','f','o','u','n','d'],
   ['d','o','e','s',' ','n','o','t',' ','e','x','i','s','t'],
   ['i','n','v','a','l','i','d',' ','s','y','m','b','o','l',' ',
    's','t','a','t','u','s']].any
    (fun p => occursIn p (lowerL msg.toList))

/-- One advance of the OHLCV cursor, as observed by the stream task. -/
inductive StreamEvent where
  | bar (b : Bar)            -- `watchOHLCV` yields a candle
  | networkError             -- `ccxt.NetworkError`
  | baseError (msg : String) -- `ccxt.BaseError` with the given message
  | otherError               -- any other exception
deriving DecidableEq, Repr

structure StreamState where
  buffer : List Bar     -- data_buffers[exchange][subscription_key]
  invalid : List String -- invalid_symbols[exchange]
  subscribed : Bool     -- subscription_key ∈ active_subscriptions[exchange]
  retries : Nat
  sleeps : List ℚ       -- log of backoff sleeps, in seconds
  exited : Bool         -- the task broke out of its while loop
deriving DecidableEq, Repr

def initialStreamState : StreamState :=
  { buffer := [], invalid := [], subscribed := true, retries := 0,
    sleeps := [], exited := false }

/-- Buffer update on a received candle (lines 244-256): replace the last
    entry when its timestamp matches, else append and keep the newest
    `buffer_size` entries. -/
def pushCandle (buffer_size : Nat) (buffer : List Bar) (b : Bar) : List Bar :=
  match buffer.getLast? with
  | some last =>
      if last.ts = b.ts then buffer.dropLast ++ [b]
      else
        let buf := buffer ++ [b]
        if buffer_size < buf.length then buf.drop (buf.length - buffer_size)
        else buf
  | none => [b]

/-- One iteration of `_handle_ohlcv_subscription`'s while loop.  The loop
    body runs only while the key is still subscribed and the task has not
    broken out; `retries` resets to 0 on a successful advance; a
    `NetworkError` backs off `RETRY_DELAY_SECONDS * 2 ** (retries - 1)`
    seconds and, past `max_retries`, marks the symbol invalid, unsubscribes
    and breaks; a `BaseError` whose message matches the permanent markers
    marks invalid / unsubscribes / breaks at once; any other `BaseError`
    backs off identically but on exhaustion only unsubscribes (no
    invalid-set write); any other exception unsubscribes and breaks. -/
def streamStep (max_retries : Nat) (retry_delay : ℚ) (buffer_size : Nat)
    (symbol : String) (s : StreamState) (ev : StreamEvent) : StreamState :=
  if ¬s.subscribed ∨ s.exited then s
  else
    match ev with
    | .bar b =>
        { s with retries := 0, buffer := pushCandle buffer_size s.buffer b }
    | .networkError =>
        let r := s.retries + 1
        let retry_time := retry_delay * 2 ^ (r - 1)
        if max_retries < r then
          { s with retries := r, invalid := symbol :: s.invalid,
                   subscribed := false, exited := true }
        else { s with retries := r, sleeps := s.sleeps ++ [retry_time] }
    | .baseError msg =>
        if isPermanentSymbolError msg then
          { s with invalid := symbol :: s.invalid, subscribed := false,
                   exited := true }
        else
          let r := s.retries + 1
          let retry_time := retry_delay * 2 ^ (r - 1)
          if max_retries < r then
            { s with retries := r, subscribed := false, exited := true }
          else { s with retries := r, sleeps := s.sleeps ++ [retry_time] }
    | .otherError => { s with subscribed := false, exited := true }

/-- The stream task on a finite script of cursor outcomes. -/
def streamRun (max_retries : Nat) (retry_delay : ℚ) (buffer_size : Nat)
    (symbol : String) (events : List StreamEvent) : StreamState :=
  events.foldl (streamStep max_retries retry_delay buffer_size symbol)
    initialStreamState

/-! ### Rolling window of the perp subscriber
    (src/fetcher/perp_ws_subscriber.py, `_watch_ohlcv` lines 453-472) -/

/-- `df.tail(1000)` applied when the frame exceeds 1000 rows
    (`if len(df) > 1000: df = df.tail(1000)`). -/
def tail1000 (df2 : List Bar) : List Bar :=
  if 1000 < df2.length then df2.drop (df2.length - 1000) else df2

/-- One bar-record operation: replace the last row when its timestamp equals
    the incoming one, else append; then keep the newest 1000 rows. -/
def record_bar_perp (df : List Bar) (b : Bar) : List Bar :=
  tail1000
    (match df.getLast? with
     | some last => if last.ts = b.ts then df.dropLast ++ [b] else df ++ [b]
     | none => [b])

/-! ## Claim theorems -/

/-- C9 counterexample: `canonicalize` is not idempotent.  One application to
    `BTCUSDTUSDT` strips one USDT suffix leaving `BTCUSDT`, and a second
    application strips again to `BTC`. -/
theorem c9_canonicalize_not_idempotent :
    canonicalize (canonicalize "BTCUSDTUSDT") ≠ canonicalize "BTCUSDTUSDT" ∧
    canonicalize "BTCUSDTUSDT" = "BTCUSDT" ∧
    canonicalize (canonicalize "BTCUSDTUSDT") = "BTC" := by decide

/-- C9 (amended): the canonical-base normalization is idempotent on every
    symbol whose canonical form is free of the normalization triggers (no
    `PERP`, `-SWAP`, `-FUTURES` or `USDT` substring and no slash); for other
    symbols — e.g. a doubled USDT suffix — a second application can strip
    further, so idempotence fails in general. -/
theorem c9_canonicalize_idempotent_on_canonFree (s : String)
    (h : canonFree (normalizeSymbolList s.toList) = true) :
    canonicalize (canonicalize s) = canonicalize s := by
  show (⟨normalizeSymbolList (normalizeSymbolList s.toList)⟩ : String) =
    ⟨normalizeSymbolList s.toList⟩
  rw [normalize_fixed_of_canonFree h]

/-- C9 witness: idempotence at the concrete symbol `ETH/USDT:USDT`
    (canonical form `ETH`). -/
theorem c9_canonicalize_idempotent_witness :
    canonicalize (canonicalize "ETH/USDT:USDT") = canonicalize "ETH/USDT:USDT" :=
  c9_canonicalize_idempotent_on_canonFree "ETH/USDT:USDT" (by decide)

/-- The Binance-side frame of scenario S3: latest close 2000 and a summed
    24-h volume of 25,000,000. -/
def vfBinanceEth : VenueFrame :=
  { exchange := "binance", symbol := "ETH/USDT:USDT",
    bars := [mkBar 0 2000 2000 25000000], hasVolumeColumn := true }

/-- The Gate-side frame of scenario S3 with a configurable volume: latest
    close 2006. -/
def vfGateEth (vol : ℚ) : VenueFrame :=
  { exchange := "gate", symbol := "ETH/USDT:USDT",
    bars := [mkBar 0 2006 2006 vol], hasVolumeColumn := true }

/-- C1 counterexample: the configuration map prices Gate's floor at
    5,000,000, yet with a Gate-side volume of 4,000,000 and a +0.3 % spread
    the detector still emits (the code hard-codes a 1,000,000 Gate floor and
    never reads `EXCHANGE_VOLUME_THRESHOLDS`), contradicting the claimed
    "4,000,000 yields no emission". -/
theorem c1_gate_floor_counterexample :
    ((EXCHANGE_VOLUME_THRESHOLDS.find? (fun p => p.1 == "gate")).map (·.2) =
      some 5000000) ∧
    (4000000 : ℚ) < 5000000 ∧
    ((calculate_price_differences_base PERP_DIFF_THRESHOLD "ETH"
        [vfBinanceEth, vfGateEth 4000000]).map
      (fun a => (a.higher_exchange, a.price_difference_percent)) =
      [("gate", 3/10)]) := by
  refine ⟨rfl, by norm_num, ?_⟩
  norm_num +decide [calculate_price_differences_base, perp_quotes,
    perp_compare_pairs, perp_pair_alert, volume_threshold_passed,
    vfBinanceEth, vfGateEth, mkBar, List.filterMap, PERP_DIFF_THRESHOLD,
    abs_of_nonneg]

/-- C1 (amended): the pair is skipped by the volume gate iff a Binance side
    has volume below the hard-coded 20,000,000 or a Gate side below the
    hard-coded 1,000,000 (the `EXCHANGE_VOLUME_THRESHOLDS` map, with its
    5,000,000 Gate entry, is never consulted, and the compared volume is the
    summed `volume` column of the frame, 0 when the column is absent);
    consequently both a 4,000,000 and a 6,000,000 Gate-side volume emit at a
    +0.3 % spread with `higher_venue = gate`. -/
theorem c1_volume_gate_amended :
    (∀ (e1 e2 : String) (v1 v2 : ℚ),
        volume_threshold_passed e1 e2 v1 v2 = false ↔
          ((e1 = "binance" ∧ v1 < 20000000) ∨
           (e2 = "binance" ∧ v2 < 20000000) ∨
           (e1 = "gate" ∧ v1 < 1000000) ∨
           (e2 = "gate" ∧ v2 < 1000000))) ∧
    ((calculate_price_differences_base PERP_DIFF_THRESHOLD "ETH"
        [vfBinanceEth, vfGateEth 4000000]).map
      (fun a => (a.higher_exchange, a.price_difference_percent)) =
      [("gate", 3/10)]) ∧
    ((calculate_price_differences_base PERP_DIFF_THRESHOLD "ETH"
        [vfBinanceEth, vfGateEth 6000000]).map
      (fun a => (a.higher_exchange, a.price_difference_percent)) =
      [("gate", 3/10)]) := by
  refine ⟨?_, ?_, ?_⟩
  · intro e1 e2 v1 v2
    simp only [volume_threshold_passed, Bool.not_eq_false', Bool.or_eq_true,
      Bool.and_eq_true, beq_iff_eq, decide_eq_true_eq]
    tauto
  · norm_num +decide [calculate_price_differences_base, perp_quotes,
      perp_compare_pairs, perp_pair_alert, volume_threshold_passed,
      vfBinanceEth, vfGateEth, mkBar, List.filterMap, PERP_DIFF_THRESHOLD,
      abs_of_nonneg]
  · norm_num +decide [calculate_price_differences_base, perp_quotes,
      perp_compare_pairs, perp_pair_alert, volume_threshold_passed,
      vfBinanceEth, vfGateEth, mkBar, List.filterMap, PERP_DIFF_THRESHOLD,
      abs_of_nonneg]

/-- The two-bar frame on which the two volatility price formulas disagree:
    first bar opens at 100 and closes at 200, last bar closes at 110. -/
def dfC2 : List Bar := [mkBar 0 100 200 10, mkBar 60000 105 110 10]

/-- C2 counterexample: on the same frame, the periodic sweep analyzer
    (`calculate_price_change`, first OPEN to last close) reports +10 %, while
    the event-driven analyzer and the spec formula (reference CLOSE to last
    close) report −45 %: the two paths are not equivalent. -/
theorem c2_two_formulas_counterexample :
    calculate_price_change dfC2 = some 10 ∧
    rt_price_change LOOKBACK_MINUTES dfC2 = -45 ∧
    spec_price_change LOOKBACK_MINUTES dfC2 = -45 ∧
    ((10 : ℚ) ≠ -45) := by
  refine ⟨?_, ?_, ?_, by norm_num⟩ <;>
    norm_num +decide [calculate_price_change, rt_price_change,
      spec_price_change, rt_reference_close, closeAt, dfC2, mkBar,
      LOOKBACK_MINUTES, List.get?]

/-- C2 (amended): the event-driven analyzer computes exactly the spec's
    close-referenced change, `(close_last − close_ref)/close_ref · 100` with
    `close_ref` the close at `iloc[-L]` (oldest when fewer than `L` bars);
    the periodic sweep analyzer instead computes
    `(close_last − open_first)/open_first · 100` from the frame's FIRST OPEN,
    so the two paths agree only when the first open happens to equal the
    reference close. -/
theorem c2_price_change_amended :
    (∀ (lookback : Nat) (df : List Bar),
        rt_price_change lookback df = spec_price_change lookback df) ∧
    (∀ (df : List Bar) (b0 bl : Bar),
        2 ≤ df.length → df.head? = some b0 → df.getLast? = some bl →
        0 < b0.opn →
        calculate_price_change df =
          some ((bl.close - b0.opn) / b0.opn * 100)) := by
  constructor
  · intro lookback df
    rfl
  · intro df b0 bl hlen hh hl hopn
    rw [calculate_price_change, if_neg (by omega), hh, hl]
    exact if_neg (not_le.mpr hopn)

/-- C2 witness: the amended statement evaluated on the concrete frame
    `dfC2`. -/
theorem c2_price_change_amended_witness :
    calculate_price_change dfC2 =
      some ((110 - 100) / 100 * 100) :=
  c2_price_change_amended.2 dfC2 (mkBar 0 100 200 10) (mkBar 60000 105 110 10)
    (by decide) rfl rfl (by norm_num [mkBar])

theorem streamStep_frozen {mr : Nat} {rd : ℚ} {bs : Nat} {sym : String}
    {s : StreamState} {ev : StreamEvent}
    (h : s.subscribed = false ∨ s.exited = true) :
    streamStep mr rd bs sym s ev = s := by
  rw [streamStep.eq_def, if_pos]
  rcases h with h | h
  · exact Or.inl (by simp [h])
  · exact Or.inr (by simp [h])

theorem streamRun_frozen {mr : Nat} {rd : ℚ} {bs : Nat} {sym : String} :
    ∀ (events : List StreamEvent) (s : StreamState),
      s.subscribed = false ∨ s.exited = true →
      events.foldl (streamStep mr rd bs sym) s = s := by
  intro events
  induction events with
  | nil => intro s _; rfl
  | cons ev evs ih =>
    intro s h
    rw [List.foldl_cons, streamStep_frozen h, ih s h]

/-- C3 (amended): an error whose message matches one of the code's four
    permanent-symbol markers (`invalid symbol`, `symbol not found`,
    `does not exist`, `invalid symbol status` — case-insensitively) makes the
    stream task, on its first occurrence, add the symbol to the per-venue
    invalid set, remove the subscription and exit at once: no retry sleep, no
    bar written, and all later cursor outcomes ignored.  (The claim's
    `unknown symbol` and channel-unsupported messages match none of the four
    markers and are retried instead — see the counterexample.) -/
theorem c3_permanent_symbol_amended (mr : Nat) (rd : ℚ) (bs : Nat)
    (sym msg : String) (events : List StreamEvent)
    (h : isPermanentSymbolError msg = true) :
    streamRun mr rd bs sym (.baseError msg :: events) =
      { buffer := [], invalid := [sym], subscribed := false, retries := 0,
        sleeps := [], exited := true } := by
  rw [streamRun, List.foldl_cons]
  have h1 : streamStep mr rd bs sym initialStreamState (.baseError msg) =
      { buffer := [], invalid := [sym], subscribed := false, retries := 0,
        sleeps := [], exited := true } := by
    rw [streamStep.eq_def, if_neg (by simp [initialStreamState])]
    simp [initialStreamState, h]
  rw [h1]
  exact streamRun_frozen events _ (Or.inl rfl)

/-- C3 witness: a first-advance `Invalid symbol status` error on
    `(gate, LINA/USDT:USDT)` evicts the symbol immediately; the following
    candle is never recorded. -/
theorem c3_permanent_symbol_witness :
    streamRun MAX_RETRIES RETRY_DELAY_SECONDS 10 "LINA/USDT:USDT"
        [.baseError "Invalid symbol status", .bar (mkBar 0 1 1 1)] =
      { buffer := [], invalid := ["LINA/USDT:USDT"], subscribed := false,
        retries := 0, sleeps := [], exited := true } :=
  c3_permanent_symbol_amended MAX_RETRIES RETRY_DELAY_SECONDS 10
    "LINA/USDT:USDT" "Invalid symbol status" [.bar (mkBar 0 1 1 1)]
    (by decide)

/-- C3 counterexample: an error message saying `unknown symbol` — which the
    claim lists as a permanent symbol problem — matches none of the code's
    four markers, so on its first occurrence the task does NOT add the symbol
    to the invalid set and does NOT exit: it backs off (one sleep of
    `RETRY_DELAY_SECONDS`) and stays subscribed. -/
theorem c3_unknown_symbol_counterexample :
    isPermanentSymbolError "unknown symbol" = false ∧
    (streamRun 3 2 10 "LINA/USDT:USDT" [.baseError "unknown symbol"]).invalid
      = [] ∧
    (streamRun 3 2 10 "LINA/USDT:USDT"
        [.baseError "unknown symbol"]).subscribed = true ∧
    (streamRun 3 2 10 "LINA/USDT:USDT" [.baseError "unknown symbol"]).exited
      = false ∧
    (streamRun 3 2 10 "LINA/USDT:USDT" [.baseError "unknown symbol"]).sleeps
      = [2] := by
  have h : streamRun 3 2 10 "LINA/USDT:USDT" [.baseError "unknown symbol"] =
      { buffer := [], invalid := [], subscribed := true, retries := 1,
        sleeps := [2], exited := false } := by
    rw [streamRun, List.foldl_cons, List.foldl_nil, streamStep.eq_def,
      if_neg (by simp [initialStreamState])]
    norm_num +decide [initialStreamState]
  exact ⟨by decide, by rw [h], by rw [h], by rw [h], by rw [h]⟩

/-- The stream task on `n ≤ max_retries` consecutive transient network
    errors: still subscribed, `retries = n`, and one backoff sleep of
    `retry_delay * 2 ^ i` for each attempt `i + 1`. -/
theorem streamRun_networkErrors (mr : Nat) (rd : ℚ) (bs : Nat) (sym : String) :
    ∀ n : Nat, n ≤ mr →
      streamRun mr rd bs sym (List.replicate n .networkError) =
        { buffer := [], invalid := [], subscribed := true, retries := n,
          sleeps := (List.range n).map (fun i => rd * 2 ^ i),
          exited := false } := by
  intro n
  induction n with
  | zero => intro _; rfl
  | succ k ih =>
    intro hk
    rw [streamRun, List.replicate_succ', List.foldl_append]
    rw [show List.foldl (streamStep mr rd bs sym) initialStreamState
          (List.replicate k .networkError) =
        streamRun mr rd bs sym (List.replicate k .networkError) from rfl]
    rw [ih (by omega), List.foldl_cons, List.foldl_nil, streamStep.eq_def,
      if_neg (by simp)]
    simp only []
    rw [if_neg (by omega)]
    simp [List.range_succ]

/-- C4 (amended): each transient-error backoff sleep is
    `RETRY_DELAY_SECONDS * 2 ^ attempt` (attempt counted from 0) with NO
    upper cap, and once consecutive network-error attempts exceed
    `MAX_RETRIES` the task adds the symbol to the per-venue invalid set,
    removes the subscription and exits.  (The claimed "capped so that no
    sleep exceeds 30 seconds" does not exist in the code — see the
    counterexample.) -/
theorem c4_backoff_amended :
    (∀ (mr : Nat) (rd : ℚ) (bs : Nat) (sym : String) (n : Nat), n ≤ mr →
        (streamRun mr rd bs sym (List.replicate n .networkError)).sleeps =
          (List.range n).map (fun i => rd * 2 ^ i)) ∧
    (∀ (mr : Nat) (rd : ℚ) (bs : Nat) (sym : String),
        streamRun mr rd bs sym (List.replicate (mr + 1) .networkError) =
          { buffer := [], invalid := [sym], subscribed := false,
            retries := mr + 1,
            sleeps := (List.range mr).map (fun i => rd * 2 ^ i),
            exited := true }) := by
  constructor
  · intro mr rd bs sym n hn
    rw [streamRun_networkErrors mr rd bs sym n hn]
  · intro mr rd bs sym
    rw [streamRun, List.replicate_succ', List.foldl_append]
    rw [show List.foldl (streamStep mr rd bs sym) initialStreamState
          (List.replicate mr .networkError) =
        streamRun mr rd bs sym (List.replicate mr .networkError) from rfl]
    rw [streamRun_networkErrors mr rd bs sym mr le_rfl, List.foldl_cons,
      List.foldl_nil, streamStep.eq_def, if_neg (by simp)]
    simp only []
    rw [if_pos (by omega)]

/-- C4 witness: at the default configuration (`MAX_RETRIES = 3`,
    `RETRY_DELAY_SECONDS = 2`) three consecutive network errors sleep
    `[2 * 2^0, 2 * 2^1, 2 * 2^2]` seconds. -/
theorem c4_backoff_witness :
    (streamRun MAX_RETRIES RETRY_DELAY_SECONDS 10 "BTC/USDT"
        (List.replicate 3 .networkError)).sleeps =
      (List.range 3).map (fun i => RETRY_DELAY_SECONDS * 2 ^ i) :=
  c4_backoff_amended.1 MAX_RETRIES RETRY_DELAY_SECONDS 10 "BTC/USDT" 3
    (by decide)

/-- C4 counterexample: with `MAX_RETRIES` configured to 5 and the default
    base delay of 2 s, the fifth retry sleeps 32 s — the claimed
    "no sleep exceeds 30 seconds" cap does not exist. -/
theorem c4_no_cap_counterexample :
    (streamRun 5 2 10 "BTC/USDT" (List.replicate 5 .networkError)).sleeps =
      [2, 4, 8, 16, 32] ∧ ¬((32 : ℚ) ≤ 30) := by
  constructor
  · rw [streamRun_networkErrors 5 2 10 "BTC/USDT" 5 le_rfl]
    norm_num [List.range_succ]
  · norm_num

/-- Every alert produced by the sweep detector concerns a non-stablecoin
    pair: the `is_stablecoin_pair` guard is the first check of its symbol
    loop. -/
theorem detect_abnormal_movements_no_stablecoin (p v : ℚ) (L : Nat)
    (market_data : List (String × List (String × List Bar))) :
    (detect_abnormal_movements p v L market_data).all
      (fun a => !(is_stablecoin_pair a.symbol)) = true := by
  rw [List.all_eq_true]
  intro a ha
  simp only [detect_abnormal_movements, List.mem_flatMap] at ha
  obtain ⟨ex, _, ha⟩ := ha
  rw [List.mem_filterMap] at ha
  obtain ⟨sd, _, heq⟩ := ha
  split at heq
  · exact absurd heq (by simp)
  · rename_i hstable
    split at heq
    · exact absurd heq (by simp)
    · split at heq
      · split at heq
        · cases heq
          simpa using hstable
        · exact absurd heq (by simp)
      · exact absurd heq (by simp)

/-- Scenario S4's frame for `(binance, USDT/USDC)`: five flat bars then a
    +3 % close on a 10× volume. -/
def dfStable : List Bar :=
  [mkBar 0 100 100 10, mkBar 60000 100 100 10, mkBar 120000 100 100 10,
   mkBar 180000 100 100 10, mkBar 240000 100 100 10,
   mkBar 300000 100 103 100]

/-- C5 counterexample: `USDT/USDC` is a stablecoin/stablecoin pair and the
    sweep path skips it, but the event-driven path (`on_new_kline`) has no
    stablecoin check at all and emits a volatility anomaly for exactly the
    claimed feed (3 % move, 10× volume, no cooldown entry). -/
theorem c5_stablecoin_counterexample :
    is_stablecoin_pair "USDT/USDC" = true ∧
    detect_abnormal_movements MIN_PRICE_INCREASE_PERCENT
        VOLUME_SPIKE_THRESHOLD LOOKBACK_MINUTES
        [("binance", [("USDT/USDC", dfStable)])] = [] ∧
    (on_new_kline MIN_PRICE_INCREASE_PERCENT VOLUME_SPIKE_THRESHOLD
        LOOKBACK_MINUTES 3600 "binance" "USDT/USDC" none dfStable).isSome
      = true := by
  refine ⟨by decide, ?_, ?_⟩
  · norm_num +decide [detect_abnormal_movements]
  · norm_num +decide [on_new_kline, rt_reference_close, closeAt,
      histAvgVolume, dfStable, mkBar, LOOKBACK_MINUTES,
      MIN_PRICE_INCREASE_PERCENT, VOLUME_SPIKE_THRESHOLD, List.get?]

/-- C5 (amended): the stablecoin/stablecoin exclusion holds on the periodic
    sweep path (no sweep alert ever carries a stablecoin pair), but not on
    the event-driven path: `on_new_kline` performs no stablecoin check, and
    `(binance, USDT/USDC)` with a 3 % move and 10× volume does produce a
    volatility anomaly there. -/
theorem c5_stablecoin_amended :
    (∀ (p v : ℚ) (L : Nat)
        (market_data : List (String × List (String × List Bar))),
        (detect_abnormal_movements p v L market_data).all
          (fun a => !(is_stablecoin_pair a.symbol)) = true) ∧
    is_stablecoin_pair "USDT/USDC" = true ∧
    (on_new_kline MIN_PRICE_INCREASE_PERCENT VOLUME_SPIKE_THRESHOLD
        LOOKBACK_MINUTES 3600 "binance" "USDT/USDC" none dfStable).isSome
      = true := by
  refine ⟨detect_abnormal_movements_no_stablecoin, by decide, ?_⟩
  norm_num +decide [on_new_kline, rt_reference_close, closeAt,
    histAvgVolume, dfStable, mkBar, LOOKBACK_MINUTES,
    MIN_PRICE_INCREASE_PERCENT, VOLUME_SPIKE_THRESHOLD, List.get?]

/-- C7 (amended): every basis alert passed by `_filter_cooldown_alerts`
    strictly exceeds its 300 s cooldown (`now − last_emit[k] > TTL` holds
    there as claimed), but the volatility gate in `on_new_kline` only
    requires `now − last_emit[k] ≥ 3600`: an anomaly can be emitted exactly
    at the TTL boundary. -/
theorem c7_cooldown_amended :
    (∀ (now : ℚ) (last_alert_time : List (String × ℚ))
        (alerts : List BasisAlert),
        (filter_cooldown_alerts 300 now last_alert_time alerts).all
          (fun a =>
            decide (300 < now - lookupTime last_alert_time (alertKey a)))
          = true) ∧
    (∀ (p v e : ℚ) (L : Nat) (ex sym : String) (df : List Bar),
        (on_new_kline p v L 3600 ex sym (some e) df).isSome = true →
        3600 ≤ e) := by
  constructor
  · intro now last_alert_time alerts
    rw [List.all_eq_true]
    intro a ha
    rw [filter_cooldown_alerts, List.mem_filter] at ha
    exact ha.2
  · intro p v e L ex sym df h
    by_contra hc
    push_neg at hc
    rw [on_new_kline] at h
    split at h
    · exact absurd h (by simp)
    · rw [if_pos] at h
      · exact absurd h (by simp)
      · simpa using hc

/-- C7 witness: the volatility half of the amended statement applied at an
    elapsed time of 4000 s (an anomaly is emitted, and 3600 ≤ 4000). -/
theorem c7_cooldown_amended_witness : (3600 : ℚ) ≤ 4000 :=
  c7_cooldown_amended.2 MIN_PRICE_INCREASE_PERCENT VOLUME_SPIKE_THRESHOLD
    4000 LOOKBACK_MINUTES "binance" "BTC/USDT" dfStable
    (by norm_num +decide [on_new_kline, rt_reference_close, closeAt,
      histAvgVolume, dfStable, mkBar, LOOKBACK_MINUTES,
      MIN_PRICE_INCREASE_PERCENT, VOLUME_SPIKE_THRESHOLD, List.get?])

/-- C7 counterexample: with a prior emission exactly 3600 s ago the
    volatility path emits again, although `now − last_emit[k] > TTL` is
    false at the boundary — the code's check is `< TTL` drops, i.e. `≥ TTL`
    emits, not the claimed strict `>`. -/
theorem c7_cooldown_boundary_counterexample :
    (on_new_kline MIN_PRICE_INCREASE_PERCENT VOLUME_SPIKE_THRESHOLD
        LOOKBACK_MINUTES 3600 "binance" "BTC/USDT" (some 3600)
        dfStable).isSome = true ∧
    ¬((3600 : ℚ) > 3600) := by
  constructor
  · norm_num +decide [on_new_kline, rt_reference_close, closeAt,
      histAvgVolume, dfStable, mkBar, LOOKBACK_MINUTES,
      MIN_PRICE_INCREASE_PERCENT, VOLUME_SPIKE_THRESHOLD, List.get?]
  · norm_num

/-- A five-bar non-stablecoin frame with a +1 % move on a 10× volume:
    enough bars, but below the default thresholds. -/
def dfC8 : List Bar :=
  [mkBar 0 100 100 10, mkBar 60000 100 100 10, mkBar 120000 100 100 10,
   mkBar 180000 100 100 10, mkBar 240000 100 101 100]

set_option maxHeartbeats 1000000 in
/-- C8 counterexample: passing the thresholds as 0 to the analyzer does NOT
    make every frame trigger — Python's `price_threshold or settings.X`
    treats 0 as falsy, so the effective thresholds become the configured
    defaults (2.0 and 5.0), and a non-stablecoin frame with sufficient bars
    and a +1 % move yields no alert. -/
theorem c8_zero_thresholds_counterexample :
    resolveThreshold (some 0) MIN_PRICE_INCREASE_PERCENT = 2 ∧
    resolveThreshold (some 0) VOLUME_SPIKE_THRESHOLD = 5 ∧
    is_stablecoin_pair "BTC/USDT" = false ∧
    LOOKBACK_MINUTES ≤ dfC8.length ∧
    detect_abnormal_movements (resolveThreshold (some 0) MIN_PRICE_INCREASE_PERCENT)
      (resolveThreshold (some 0) VOLUME_SPIKE_THRESHOLD) LOOKBACK_MINUTES
      [("binance", [("BTC/USDT", dfC8)])] = [] := by
  refine ⟨rfl, rfl, by decide, by decide, ?_⟩
  norm_num +decide [detect_abnormal_movements, calculate_price_change,
    calculate_volume_ratio, histAvgVolume, dfC8, mkBar, LOOKBACK_MINUTES,
    resolveThreshold, MIN_PRICE_INCREASE_PERCENT, VOLUME_SPIKE_THRESHOLD]

/-- C8 (amended): thresholds passed as 0 fall back to the settings defaults
    through the or-idiom, so they never reach the detector; when the
    EFFECTIVE thresholds are 0 (settings set to 0, arguments left `None`),
    a non-stablecoin symbol with at least `max(L, 2)` bars, a positive first
    open, a non-negative move, a positive historical mean volume and a
    non-negative last volume does trigger. -/
theorem c8_zero_thresholds_amended :
    (∀ dflt : ℚ, resolveThreshold (some 0) dflt = dflt) ∧
    (∀ (L : Nat) (ex sym : String) (df : List Bar) (b0 bl : Bar),
        is_stablecoin_pair sym = false →
        df.head? = some b0 → df.getLast? = some bl →
        2 ≤ df.length → L ≤ df.length →
        0 < b0.opn → b0.opn ≤ bl.close →
        0 < histAvgVolume df → 0 ≤ bl.volume →
        detect_abnormal_movements 0 0 L [(ex, [(sym, df)])] ≠ []) := by
  constructor
  · intro dflt; rfl
  · intro L ex sym df b0 bl hsym hh hl h2 hL hopn hmove havg hvol
    have hne : df ≠ [] := by
      intro he
      rw [he] at hh
      exact absurd hh (by simp)
    have hpc : calculate_price_change df =
        some ((bl.close - b0.opn) / b0.opn * 100) := by
      rw [calculate_price_change, if_neg (by omega), hh, hl]
      exact if_neg (not_le.mpr hopn)
    have hvr : calculate_volume_ratio df =
        some (bl.volume / histAvgVolume df) := by
      rw [calculate_volume_ratio, if_neg (by omega), hl]
      exact if_pos havg
    have hpc0 : (0 : ℚ) ≤ (bl.close - b0.opn) / b0.opn * 100 := by
      apply mul_nonneg
      · exact div_nonneg (by linarith) (le_of_lt hopn)
      · norm_num
    have hvr0 : (0 : ℚ) ≤ bl.volume / histAvgVolume df :=
      div_nonneg hvol (le_of_lt havg)
    have hguard : ¬((df.isEmpty || decide (df.length < L)) = true) := by
      simp only [Bool.or_eq_true, List.isEmpty_iff, decide_eq_true_eq]
      push_neg
      exact ⟨hne, by omega⟩
    have hg : (if is_stablecoin_pair sym then (none : Option MovementAlert)
        else if df.isEmpty || decide (df.length < L) then none
        else
          match calculate_price_change df, calculate_volume_ratio df,
                df.getLast? with
          | some pc, some vr, some last =>
              if (0 : ℚ) ≤ pc ∧ (0 : ℚ) ≤ vr then
                some { exchange := ex, symbol := sym,
                       price_change_percent := pc, volume_ratio := vr,
                       current_price := last.close }
              else none
          | _, _, _ => none) =
        some { exchange := ex, symbol := sym,
               price_change_percent := (bl.close - b0.opn) / b0.opn * 100,
               volume_ratio := bl.volume / histAvgVolume df,
               current_price := bl.close } := by
      rw [if_neg (by simp [hsym]), if_neg hguard, hpc, hvr, hl]
      exact if_pos ⟨hpc0, hvr0⟩
    intro hcontra
    have hmem : MovementAlert.mk ex sym ((bl.close - b0.opn) / b0.opn * 100)
        (bl.volume / histAvgVolume df) bl.close ∈
        detect_abnormal_movements 0 0 L [(ex, [(sym, df)])] := by
      simp only [detect_abnormal_movements]
      exact List.mem_flatMap.mpr ⟨(ex, [(sym, df)]), by simp,
        List.mem_filterMap.mpr ⟨(sym, df), by simp, hg⟩⟩
    rw [hcontra] at hmem
    exact absurd hmem (List.not_mem_nil _)

/-- The witness frame for C8: +3 % move on a 6× volume over five bars. -/
def dfC8w : List Bar :=
  [mkBar 0 100 100 10, mkBar 60000 100 100 10, mkBar 120000 100 100 10,
   mkBar 180000 100 100 10, mkBar 240000 100 103 60]

/-- C8 witness: with effective thresholds 0, the concrete frame `dfC8w`
    (non-stablecoin, five bars, positive move) triggers. -/
theorem c8_zero_thresholds_witness :
    detect_abnormal_movements 0 0 LOOKBACK_MINUTES
      [("binance", [("BTC/USDT", dfC8w)])] ≠ [] :=
  c8_zero_thresholds_amended.2 LOOKBACK_MINUTES "binance" "BTC/USDT" dfC8w
    (mkBar 0 100 100 10) (mkBar 240000 100 103 60)
    (by decide) rfl rfl (by decide) (by decide)
    (by norm_num [mkBar]) (by norm_num [mkBar])
    (by norm_num [histAvgVolume, dfC8w, mkBar]) (by norm_num [mkBar])

theorem dropLast_append_getLast {α : Type} :
    ∀ {l : List α} {a : α}, l.getLast? = some a → l.dropLast ++ [a] = l := by
  intro l
  induction l with
  | nil => intro a h; simp at h
  | cons x xs ih =>
    intro a h
    cases xs with
    | nil =>
      simp at h
      subst h
      rfl
    | cons y ys =>
      rw [List.getLast?_cons_cons] at h
      rw [List.dropLast_cons₂, List.cons_append, ih h]

theorem getLast?_drop_of_lt {α : Type} (l : List α) (k : Nat)
    (h : k < l.length) : (l.drop k).getLast? = l.getLast? := by
  conv_rhs => rw [← List.take_append_drop k l]
  rw [List.getLast?_append]
  cases hx : (l.drop k).getLast? with
  | some x => rfl
  | none =>
    rw [List.getLast?_eq_none_iff] at hx
    have := List.drop_eq_nil_iff.mp hx
    omega

theorem tail1000_getLast (l : List Bar) : (tail1000 l).getLast? = l.getLast? := by
  rw [tail1000]
  split
  · exact getLast?_drop_of_lt _ _ (by omega)
  · rfl

theorem tail1000_length (l : List Bar) : (tail1000 l).length ≤ 1000 := by
  rw [tail1000]
  split
  · rw [List.length_drop]
    omega
  · omega

theorem tail1000_pairwise {R : Bar → Bar → Prop} {l : List Bar}
    (h : List.Pairwise R l) : List.Pairwise R (tail1000 l) := by
  rw [tail1000]
  split
  · exact List.Pairwise.sublist (List.drop_sublist _ _) h
  · exact h

theorem record_bar_perp_getLast (df : List Bar) (b : Bar) :
    (record_bar_perp df b).getLast? = some b := by
  rw [record_bar_perp, tail1000_getLast]
  cases df.getLast? with
  | none => rfl
  | some last =>
    show (if last.ts = b.ts then df.dropLast ++ [b] else df ++ [b]).getLast? =
      some b
    by_cases hts : last.ts = b.ts
    · rw [if_pos hts]
      exact List.getLast?_concat _
    · rw [if_neg hts]
      exact List.getLast?_concat _

theorem record_bar_perp_length (df : List Bar) (b : Bar) :
    (record_bar_perp df b).length ≤ 1000 :=
  tail1000_length _

theorem record_bar_perp_pairwise {df : List Bar} {b : Bar}
    (hp : List.Pairwise (fun x y : Bar => x.ts < y.ts) df)
    (hle : ∀ last, df.getLast? = some last → last.ts ≤ b.ts) :
    List.Pairwise (fun x y : Bar => x.ts < y.ts) (record_bar_perp df b) := by
  rw [record_bar_perp]
  apply tail1000_pairwise
  cases hdl : df.getLast? with
  | none => simp
  | some last =>
    show List.Pairwise (fun x y : Bar => x.ts < y.ts)
      (if last.ts = b.ts then df.dropLast ++ [b] else df ++ [b])
    have hdf : df.dropLast ++ [last] = df := dropLast_append_getLast hdl
    have hlast := hle last hdl
    have hdrop : List.Pairwise (fun x y : Bar => x.ts < y.ts) df.dropLast ∧
        ∀ x ∈ df.dropLast, x.ts < last.ts := by
      have hp2 := hp
      rw [← hdf, List.pairwise_append] at hp2
      exact ⟨hp2.1, fun x hx => by simpa using hp2.2.2 x hx last (by simp)⟩
    by_cases hts : last.ts = b.ts
    · rw [if_pos hts, List.pairwise_append]
      refine ⟨hdrop.1, by simp, ?_⟩
      intro x hx y hy
      simp only [List.mem_singleton] at hy
      subst hy
      calc x.ts < last.ts := hdrop.2 x hx
        _ = y.ts := hts
    · have hlt : last.ts < b.ts := lt_of_le_of_ne hlast hts
      rw [if_neg hts, List.pairwise_append]
      refine ⟨hp, by simp, ?_⟩
      intro x hx y hy
      simp only [List.mem_singleton] at hy
      subst hy
      rw [← hdf] at hx
      rcases List.mem_append.mp hx with hx | hx
      · exact lt_trans (hdrop.2 x hx) hlt
      · simp only [List.mem_singleton] at hx
        subst hx
        exact hlt

theorem fold_record_pairwise :
    ∀ (bs : List Bar) (w : List Bar),
      List.Pairwise (fun x y : Bar => x.ts < y.ts) w →
      List.Chain' (fun x y : Bar => x.ts ≤ y.ts) (w.getLast?.toList ++ bs) →
      List.Pairwise (fun x y : Bar => x.ts < y.ts)
        (bs.foldl record_bar_perp w) := by
  intro bs
  induction bs with
  | nil => intro w hp _; exact hp
  | cons b rest ih =>
    intro w hp hch
    rw [List.foldl_cons]
    apply ih
    · apply record_bar_perp_pairwise hp
      intro last hdl
      rw [hdl] at hch
      have hcb : last.ts ≤ b.ts ∧
          List.Chain' (fun x y : Bar => x.ts ≤ y.ts) (b :: rest) := by
        simpa using hch
      exact hcb.1
    · rw [record_bar_perp_getLast]
      cases hdl : w.getLast? with
      | none =>
        rw [hdl] at hch
        simpa using hch
      | some last =>
        rw [hdl] at hch
        have hcb : last.ts ≤ b.ts ∧
            List.Chain' (fun x y : Bar => x.ts ≤ y.ts) (b :: rest) := by
          simpa using hch
        simpa using hcb.2

theorem fold_record_length :
    ∀ (bs : List Bar) (w : List Bar), w.length ≤ 1000 →
      (bs.foldl record_bar_perp w).length ≤ 1000 := by
  intro bs
  induction bs with
  | nil => intro w h; exact h
  | cons b rest ih =>
    intro w _
    rw [List.foldl_cons]
    exact ih _ (record_bar_perp_length w b)

/-- C6 (amended): PROVIDED the stream delivers bars with non-decreasing
    timestamps (the live-candle update pattern: same-timestamp replace,
    newer-timestamp append), the rolling window read after any such sequence
    has strictly ascending, pairwise-distinct timestamps and never exceeds
    `W = 1000` rows.  For out-of-order deliveries the code compares the
    incoming timestamp only against the LAST row, so the invariant fails —
    see the counterexample. -/
theorem c6_window_invariant_amended (bs : List Bar)
    (h : List.Chain' (fun x y : Bar => x.ts ≤ y.ts) bs) :
    List.Pairwise (fun x y : Bar => x.ts < y.ts)
      (bs.foldl record_bar_perp []) ∧
    ((bs.foldl record_bar_perp []).map (·.ts)).Nodup ∧
    (bs.foldl record_bar_perp []).length ≤ 1000 := by
  have hp := fold_record_pairwise bs [] (by simp) (by simpa using h)
  refine ⟨hp, ?_, fold_record_length bs [] (by simp)⟩
  have hne := hp.imp fun hxy => ne_of_lt hxy
  exact List.pairwise_map.mpr hne

/-- C6 witness: a monotone delivery (equal timestamp replaces, newer
    appends) keeps the window sorted and bounded. -/
theorem c6_window_invariant_witness :
    List.Pairwise (fun x y : Bar => x.ts < y.ts)
      ([mkBar 60000 1 1 1, mkBar 60000 1 2 1, mkBar 120000 1 1 1].foldl
        record_bar_perp []) ∧
    (([mkBar 60000 1 1 1, mkBar 60000 1 2 1, mkBar 120000 1 1 1].foldl
        record_bar_perp []).map (·.ts)).Nodup ∧
    ([mkBar 60000 1 1 1, mkBar 60000 1 2 1, mkBar 120000 1 1 1].foldl
        record_bar_perp []).length ≤ 1000 :=
  c6_window_invariant_amended
    [mkBar 60000 1 1 1, mkBar 60000 1 2 1, mkBar 120000 1 1 1]
    (by norm_num [mkBar, List.chain'_cons])

/-- C6 counterexample: an out-of-order delivery (timestamps 1 min, 2 min,
    then 1 min again) is APPENDED because only the last row's timestamp is
    compared, leaving the stored timestamps neither strictly ascending nor
    pairwise distinct. -/
theorem c6_out_of_order_counterexample :
    (([mkBar 60000 1 1 1, mkBar 120000 1 1 1, mkBar 60000 1 2 1].foldl
        record_bar_perp []).map (·.ts)) = [60000, 120000, 60000] ∧
    ¬ List.Pairwise (· < ·) [(60000 : Int), 120000, 60000] ∧
    ¬ ([(60000 : Int), 120000, 60000].Nodup) := by
  refine ⟨rfl, by decide, by decide⟩

/-- One venue with a premium pair (`BTC` future +1 % over spot) and a
    discount pair (`ETH` future −1 % under spot). -/
def c10Data : List ExchangeMarkets :=
  [{ exchange := "binance",
     spot := some [("BTC/USDT", [mkBar 0 100 100 1]),
                   ("ETH/USDT", [mkBar 0 100 100 1])],
     future := some [("BTC/USDT:USDT", [mkBar 0 101 101 1]),
                     ("ETH/USDT:USDT", [mkBar 0 99 99 1])] }]

set_option maxHeartbeats 1000000 in
/-- C10: a `basis_direction` outside `{'both', 'premium', 'discount'}` does
    not raise — the constructor falls back to `'both'` — and with direction
    `'both'` the detector subsequently reports both the premium and the
    discount anomaly. -/
theorem c10_direction_fallback (d : String)
    (h1 : d ≠ "both") (h2 : d ≠ "premium") (h3 : d ≠ "discount") :
    resolve_basis_direction d = "both" ∧
    ((detect_abnormal_basis SPOT_FUTURES_DIFF_THRESHOLD
        (resolve_basis_direction d) c10Data).map
      (fun a => (a.direction, a.price_difference_percent)) =
      [("premium", 1), ("discount", -1)]) := by
  have hd : resolve_basis_direction d = "both" := by
    rw [resolve_basis_direction, if_neg]
    push_neg
    exact ⟨h1, h2, h3⟩
  rw [hd]
  refine ⟨rfl, ?_⟩
  have e1 : ("BTC/USDT" == "ETH/USDT") = false := by decide
  have e2 : ("BTC/USDT:USDT" == "ETH/USDT:USDT") = false := by decide
  have e3 : ("ETH/USDT" == "BTC/USDT") = false := by decide
  have e4 : ("ETH/USDT:USDT" == "BTC/USDT:USDT") = false := by decide
  norm_num +decide [detect_abnormal_basis, find_matching_pairs,
    calculate_price_difference, dictInsert, dictFind, c10Data, mkBar,
    SPOT_FUTURES_DIFF_THRESHOLD, List.filterMap, List.find?,
    e1, e2, e3, e4, abs_of_nonneg, abs_of_nonpos]

/-- C10 witness: the fallback and double report at the concrete invalid
    direction `sideways`. -/
theorem c10_direction_fallback_witness :
    resolve_basis_direction "sideways" = "both" ∧
    ((detect_abnormal_basis SPOT_FUTURES_DIFF_THRESHOLD
        (resolve_basis_direction "sideways") c10Data).map
      (fun a => (a.direction, a.price_difference_percent)) =
      [("premium", 1), ("discount", -1)]) :=
  c10_direction_fallback "sideways" (by decide) (by decide) (by decide)
